import Mathlib

/-
Shallow embedding of `colossalai/zero/sharded_model/sharded_model_v2.py`
(class `ShardedModelV2`).

Modelling conventions:
* tensors are flat lists of rationals carrying a dtype and a device tag
  (floating-point rounding is out of scope; fp16→fp32 upcast is exact);
* the mutable object state of a `ShardedModelV2` instance is the `State`
  record, the construction-time constants are the `Cfg` record;
* Python exceptions are modelled by returning the state mutated up to the
  raise point together with `some err`;
* external collaborators that are not part of this file's source module
  (shard strategy, collective reduce-scatter, the wrapped module's
  state-dict export, CUDA memory capacity) are abstract function
  parameters, constrained only where a theorem needs their documented
  contract.
-/

namespace ColossalZero

/-- Tensor dtype tag (`torch.float16` / `torch.float32`). -/
inductive DType
  | fp16
  | fp32
  deriving DecidableEq, Repr

/-- Device tag of a tensor (`cuda` / `cpu`). -/
inductive Device
  | cuda
  | cpu
  deriving DecidableEq, Repr

/-- A torch tensor: flat data plus dtype/device tags and the autograd
`requires_grad` flag (only inspected on gradients by the backward hook). -/
structure Tensor where
  data : List ℚ
  dtype : DType
  device : Device
  requiresGrad : Bool
  deriving DecidableEq, Repr

/-- Modelled from the spec: `cast_tensor_to_fp32` from `_utils` (file not in
the excerpt) — an fp16 tensor is upcast to fp32 (exact on values), any other
tensor is returned unchanged. -/
def cast_tensor_to_fp32 (t : Tensor) : Tensor :=
  if t.dtype = DType.fp16 then { t with dtype := DType.fp32 } else t

/-- `tensor.cpu()`: relocate a tensor to host memory (values unchanged). -/
def toCpu (t : Tensor) : Tensor :=
  { t with device := Device.cpu }

/-- The sharded data tensor held by a parameter's `col_attr`
(`ShardedTensor`: a payload plus the `is_sharded` flag). -/
structure ShardedTensor where
  payload : Tensor
  is_sharded : Bool
  deriving DecidableEq, Repr

/-- Per-parameter bookkeeping record (`param.col_attr`, the spec's
`ShardRecord`): the sharded data tensor, the two optional gradient buffers,
the host-offload flag and the backward-fire counter. -/
structure ShardRecord where
  sharded_data_tensor : ShardedTensor
  fp16_grad : Option Tensor
  fp32_grad : Option Tensor
  offload_grad : Bool
  bwd_count : ℕ
  deriving DecidableEq, Repr

/-- Modelled from the spec: `param_is_sharded` of the (external)
`ShardedParamV2` reads the `is_sharded` flag of the sharded data tensor. -/
def ShardRecord.param_is_sharded (r : ShardRecord) : Bool :=
  r.sharded_data_tensor.is_sharded

/-- A wrapped-module parameter: autograd flag, active data tensor, the
published gradient `p.grad` (optional) and the attached shard record. -/
structure Param where
  requires_grad : Bool
  data : Tensor
  grad : Option Tensor
  col_attr : ShardRecord
  deriving DecidableEq, Repr

/-- Default parameter used only as the `List.getD` fallback in theorem
statements. -/
def default_param : Param :=
  { requires_grad := false,
    data := { data := [], dtype := DType.fp32, device := Device.cuda, requiresGrad := false },
    grad := none,
    col_attr :=
      { sharded_data_tensor :=
          { payload := { data := [], dtype := DType.fp32, device := Device.cuda, requiresGrad := false },
            is_sharded := true },
        fp16_grad := none, fp32_grad := none, offload_grad := false, bwd_count := 0 } }

/-- Modelled from the spec: the `MemStatsCollector` (external to the
excerpted module) records one overall-usage sample per probe while a
collection window is open (`start_flag`), retains the sample sequence of the
window, and owns a sampling counter that the orchestrator resets each
iteration. -/
structure MemStatsCollector where
  start_flag : Bool
  overall_cuda : List ℚ
  sampling_cnt : ℕ
  deriving DecidableEq, Repr

/-- Open the sampling window (`start_collection`). -/
def MemStatsCollector.start_collection (c : MemStatsCollector) : MemStatsCollector :=
  { c with start_flag := true }

/-- Close the sampling window (`finish_collection`); the recorded samples
are retained. -/
def MemStatsCollector.finish_collection (c : MemStatsCollector) : MemStatsCollector :=
  { c with start_flag := false }

/-- Record one overall-usage sample; samples taken outside an open window
are dropped. -/
def MemStatsCollector.sample_memstats (c : MemStatsCollector) (v : ℚ) : MemStatsCollector :=
  if c.start_flag then { c with overall_cuda := c.overall_cuda ++ [v] } else c

/-- Reset the per-iteration sampling counter (`reset_sampling_cnter`). -/
def MemStatsCollector.reset_sampling_cnter (c : MemStatsCollector) : MemStatsCollector :=
  { c with sampling_cnt := 0 }

/-- Python's `max` over a list: `none` on the empty list (where Python
raises `ValueError`). -/
def list_max (l : List ℚ) : Option ℚ :=
  l.foldl (fun acc v =>
    match acc with
    | none => some v
    | some m => some (max m v)) none

/-- The reduce-scatter bucketer, reduced to its interface state: the queue
of pending submissions (parameter index paired with the submitted chunk
set).  Modelled from the spec: the bucketer batches submissions and, on
flush, invokes each entry's completion callback with the reduced output
chunk produced by the external collective. -/
structure Bucketer where
  pending : List (ℕ × List Tensor)
  deriving DecidableEq, Repr

/-- Python-style errors surfaced by the modelled code, grouped by the
spec's taxonomy: `configError` is the `ConfigurationError` class
(construction-precondition asserts and the reuse-with-accumulation assert),
`precisionError` the gradient-requires-grad assert, `assertError` the
`nn.ModuleList` pass-through asserts, `notImplemented` the unsupported
state-dict load, `attrError` a `NoneType` attribute access, `viewError` a
`view_as` element-count mismatch, `valueError` Python's `max()` on an empty
sequence, `zeroDivError` float division by zero. -/
inductive Err
  | configError
  | precisionError
  | assertError
  | notImplemented
  | attrError
  | viewError
  | valueError
  | zeroDivError
  deriving DecidableEq, Repr

/-- Construction-time constants of a `ShardedModelV2` instance. -/
structure Cfg where
  world_size : ℕ
  shard_param : Bool
  reuse_fp16_shard : Bool
  fp32_reduce_scatter : Bool
  cpu_offload : Bool
  gradient_predivide_factor : ℚ
  gradient_postdivide_factor : ℚ
  deriving DecidableEq, Repr

/-- Mutable state of a `ShardedModelV2` instance. -/
structure State where
  params : List Param
  require_backward_grad_sync : Bool
  iter_cnter : ℕ
  cuda_margin_space : ℚ
  memstats : Option MemStatsCollector
  reducer : Bucketer
  deriving DecidableEq, Repr

/-- The external shard/gather strategy (`BaseShardStrategy`), abstracted to
its per-tensor action on a sharded data tensor. -/
structure Strategy where
  shardFn : ShardedTensor → ShardedTensor
  gatherFn : ShardedTensor → ShardedTensor

/-- The external collective's delivered reduce-scatter output for a queued
submission (this worker's reduced chunk), indexed by parameter and the
submitted chunk set. -/
def Deliver : Type := ℕ → List Tensor → Tensor

/-- Modelled from the spec: `get_gradient_predivide_factor` from `_utils`
(file not in the excerpt) — the largest factor at most the square root of
the worker count that evenly divides the worker count, defaulting to 1. -/
def get_gradient_predivide_factor (world_size : ℕ) : ℕ :=
  ((List.range (world_size + 1)).filter
    (fun d => (world_size % d == 0) && decide (d * d ≤ world_size))).foldl max 1

/-- The effective predivide factor of `__init__`: the supplied value when
one is given, otherwise the derived one. -/
def init_predivide (world_size : ℕ) (supplied : Option ℚ) : ℚ :=
  match supplied with
  | some f => f
  | none => (get_gradient_predivide_factor world_size : ℚ)

/-- A module parameter before construction: `col_attr` is present only when
`ZeroInitContext` initialised it. -/
structure PreParam where
  requires_grad : Bool
  data : Tensor
  grad : Option Tensor
  col_attr : Option ShardRecord
  deriving DecidableEq, Repr

/-- Arguments of `ShardedModelV2.__init__` that the embedding needs. -/
structure InitArgs where
  params : List PreParam
  world_size : ℕ
  gradient_predivide_factor : Option ℚ
  fp32_reduce_scatter : Bool
  offload_cpu : Bool
  use_memory_tracer : Bool
  reuse_fp16_shard : Bool
  deriving DecidableEq, Repr

/-- The per-parameter sharding flags read off during construction. -/
def sharded_flags (a : InitArgs) : List Bool :=
  a.params.filterMap (fun p => p.col_attr.map ShardRecord.param_is_sharded)

/-- `ShardedModelV2.__init__`: checks that every parameter carries a
`col_attr` and that the parameters are all sharded or all unsharded
(`configError` otherwise), derives the predivide factor when none is
supplied, computes the postdivide factor as `world_size / predivide`
(`zeroDivError` on a zero supplied factor), sets every record's
`offload_grad`, and produces the constants and the initial mutable state. -/
def init_model (a : InitArgs) : Except Err (Cfg × State) :=
  if a.params.all (fun p => p.col_attr.isSome) then
    if (sharded_flags a).all (fun b => b) || (sharded_flags a).all (fun b => !b) then
      if init_predivide a.world_size a.gradient_predivide_factor = 0 then
        Except.error Err.zeroDivError
      else
        Except.ok
          ({ world_size := a.world_size,
             shard_param := (sharded_flags a).all (fun b => b),
             reuse_fp16_shard := a.reuse_fp16_shard,
             fp32_reduce_scatter := a.fp32_reduce_scatter,
             cpu_offload := a.offload_cpu,
             gradient_predivide_factor := init_predivide a.world_size a.gradient_predivide_factor,
             gradient_postdivide_factor :=
               (a.world_size : ℚ) / init_predivide a.world_size a.gradient_predivide_factor },
           { params := a.params.filterMap (fun p => p.col_attr.map (fun c =>
               ({ requires_grad := p.requires_grad, data := p.data, grad := p.grad,
                  col_attr := { c with offload_grad := a.offload_cpu } } : Param))),
             require_backward_grad_sync := true,
             iter_cnter := 0,
             cuda_margin_space := 0,
             memstats := if a.use_memory_tracer then
               some { start_flag := false, overall_cuda := [], sampling_cnt := 0 } else none,
             reducer := { pending := [] } })
    else Except.error Err.configError
  else Except.error Err.configError

/-- `ShardedModelV2._update_memstats`: on the sampling iteration (counter 0)
close the collection window; whenever a collector is present, reset its
sampling counter and recompute the margin space as device capacity minus the
peak recorded overall usage (Python raises `ValueError` when no sample was
recorded); finally advance the iteration counter. -/
def _update_memstats (capacity : ℚ) (s : State) : State × Option Err :=
  match s.memstats with
  | none => ({ s with iter_cnter := s.iter_cnter + 1 }, none)
  | some c0 =>
      let c1 := if s.iter_cnter = 0 then c0.finish_collection else c0
      let c2 := c1.reset_sampling_cnter
      match list_max c2.overall_cuda with
      | none => ({ s with memstats := some c2 }, some Err.valueError)
      | some m =>
          ({ s with memstats := some c2,
                    cuda_margin_space := capacity - m,
                    iter_cnter := s.iter_cnter + 1 }, none)

/-- `ShardedModelV2._reduce_scatter_callback`: flatten the reduced chunk,
apply the postdivide factor when it exceeds 1, then store the result as the
new sharded payload (gradient-storage-reuse mode, marking the record
sharded) or as `fp16_grad`. -/
def _reduce_scatter_callback (cfg : Cfg) (p : Param) (reduced_grad : Tensor) : Param :=
  let rg := if 1 < cfg.gradient_postdivide_factor then
      { reduced_grad with data := reduced_grad.data.map (fun x => x / cfg.gradient_postdivide_factor) }
    else reduced_grad
  if cfg.reuse_fp16_shard then
    { p with col_attr := { p.col_attr with
        sharded_data_tensor := { payload := rg, is_sharded := true } } }
  else
    { p with col_attr := { p.col_attr with fp16_grad := some rg } }

/-- Replace the element at an index, leaving the list unchanged when the
index is out of range. -/
def updateAt {α : Type} (f : α → α) : ℕ → List α → List α
  | _, [] => []
  | 0, a :: l => f a :: l
  | n + 1, a :: l => a :: updateAt f n l

/-- `reducer.flush()`: run every pending submission's completion callback,
in queue order, with the chunk delivered by the external collective. -/
def flush_pending (dl : Deliver) (cfg : Cfg) (ps : List Param)
    (pending : List (ℕ × List Tensor)) : List Param :=
  pending.foldl (fun acc e =>
    updateAt (fun p => _reduce_scatter_callback cfg p (dl e.1 e.2)) e.1 acc) ps

/-- The reconciliation safety net (lines 182–187 of the source): when the
model is sharded, re-shard every record whose post-backward hook never fired
and thus is still unsharded. -/
def shard_unfired (st : Strategy) (cfg : Cfg) (ps : List Param) : List Param :=
  if cfg.shard_param then
    ps.map (fun p =>
      if p.col_attr.param_is_sharded then p
      else { p with col_attr := { p.col_attr with
              sharded_data_tensor := st.shardFn p.col_attr.sharded_data_tensor } })
  else ps

/-- The authoritative gradient selection of lines 205–214: the reused
sharded payload in gradient-storage-reuse mode, otherwise the fp32 upcast of
`fp16_grad` (`none` when that buffer is empty); relocated to host memory
when `offload_grad` is set, and added into a pre-existing `fp32_grad`
accumulator. -/
def authoritative_payload (cfg : Cfg) (r : ShardRecord) : Option Tensor :=
  (if cfg.reuse_fp16_shard then some r.sharded_data_tensor.payload
   else r.fp16_grad.map cast_tensor_to_fp32).map (fun gp0 =>
    let gp := if r.offload_grad then toCpu gp0 else gp0
    match r.fp32_grad with
    | some a => { a with data := List.zipWith (fun x y => x + y) a.data gp.data }
    | none => gp)

/-- The per-parameter body of the reconciliation loop, in the no-sync or
non-trainable cases (reset the backward-fire counter only). -/
def step_sync (cfg : Cfg) (p : Param) : Param × Option Err :=
  match (if cfg.reuse_fp16_shard then Except.ok p.col_attr.sharded_data_tensor.payload
         else match p.col_attr.fp16_grad with
              | none => Except.error Err.attrError
              | some g => Except.ok (cast_tensor_to_fp32 g)) with
  | Except.error e => (p, some e)
  | Except.ok gp0 =>
      let gp := if p.col_attr.offload_grad then toCpu gp0 else gp0
      -- in reuse mode `grad_payload` aliases the sharded payload, so the
      -- in-place `.cpu()` relocation is visible on the record
      let p := if cfg.reuse_fp16_shard && p.col_attr.offload_grad then
          { p with col_attr := { p.col_attr with
              sharded_data_tensor := { p.col_attr.sharded_data_tensor with payload := gp } } }
        else p
      match p.col_attr.fp32_grad with
      | some a =>
          if cfg.reuse_fp16_shard then (p, some Err.configError)
          else if a.data.length ≠ gp.data.length then (p, some Err.viewError)
          else
            let acc := { a with data := List.zipWith (fun x y => x + y) a.data gp.data }
            let p := { p with col_attr := { p.col_attr with fp32_grad := some acc } }
            match p.grad with
            | none => (p, some Err.attrError)
            | some _ =>
                ({ p with
                    grad := some acc,
                    col_attr := { p.col_attr with fp16_grad := none, fp32_grad := none } }, none)
      | none =>
          match p.grad with
          | none => (p, some Err.attrError)
          | some _ =>
              ({ p with
                  grad := some gp,
                  col_attr := { p.col_attr with fp16_grad := none, fp32_grad := none } }, none)

/-- Reset a parameter's backward-fire counter (`p.col_attr.bwd_count = 0`). -/
def reset_count (p : Param) : Param :=
  { p with col_attr := { p.col_attr with bwd_count := 0 } }

/-- One iteration of the reconciliation loop over a parameter (lines
188–217): reset the backward-fire counter; skip non-trainable parameters and
no-sync passes; otherwise select the authoritative gradient payload, offload
it when configured, fold it into a pre-existing fp32 accumulator (asserting
that gradient-storage-reuse mode is off), publish it as `p.grad` and clear
both internal gradient buffers. -/
def step_param (cfg : Cfg) (sync : Bool) (p0 : Param) : Param × Option Err :=
  let p := reset_count p0
  if p.requires_grad = false then (p, none)
  else if sync = false then (p, none)
  else step_sync cfg p

/-- The reconciliation loop over the parameter list; a raised exception
aborts the loop, leaving the remaining parameters untouched. -/
def param_loop (cfg : Cfg) (sync : Bool) : List Param → List Param × Option Err
  | [] => ([], none)
  | p :: rest =>
      match step_param cfg sync p with
      | (p1, some e) => (p1 :: rest, some e)
      | (p1, none) =>
          let r := param_loop cfg sync rest
          (p1 :: r.1, r.2)

/-- The parameter list as it stands right before the reconciliation loop:
the pending buckets flushed when synchronisation is enabled, then the
safety-net re-shard applied. -/
def pre_params (st : Strategy) (dl : Deliver) (cfg : Cfg) (s1 : State) : List Param :=
  shard_unfired st cfg
    (if s1.require_backward_grad_sync
     then flush_pending dl cfg s1.params s1.reducer.pending
     else s1.params)

/-- The reconciliation steps preceding the parameter loop: update the
memory statistics, flush the pending buckets when synchronisation is
enabled, release the bucket buffers, and run the safety-net re-shard. -/
def _pre_loop (st : Strategy) (dl : Deliver) (capacity : ℚ) (cfg : Cfg)
    (s : State) : State × Option Err :=
  match _update_memstats capacity s with
  | (s1, some e) => (s1, some e)
  | (s1, none) =>
      ({ s1 with params := pre_params st dl cfg s1, reducer := { pending := [] } }, none)

/-- `ShardedModelV2._post_backward_operations`: the pre-loop steps followed
by the per-parameter reconciliation loop. -/
def _post_backward_operations (st : Strategy) (dl : Deliver) (capacity : ℚ)
    (cfg : Cfg) (s : State) : State × Option Err :=
  match _pre_loop st dl capacity cfg s with
  | (s1, some e) => (s1, some e)
  | (s1, none) =>
      let r := param_loop cfg s1.require_backward_grad_sync s1.params
      ({ s1 with params := r.1 }, r.2)

/-- Modelled from the spec: `chunk_and_pad` from `_utils` (file not in the
excerpt) — split a flat tensor into `n` equal contiguous chunks, zero-padding
the final chunk. -/
def chunk_and_pad (t : Tensor) (n : ℕ) : List Tensor :=
  let k := (t.data.length + n - 1) / n
  (List.range n).map (fun i =>
    let c := (t.data.drop (i * k)).take k
    { t with data := c ++ List.replicate (k - c.length) 0 })

/-- Outcome of the backward hook: a raised exception, or a normal return
(Python's bare `return` is `returned none`; the storage-freed placeholder is
`returned (some t)`). -/
inductive HookResult
  | errored (e : Err)
  | returned (g : Option Tensor)
  deriving DecidableEq, Repr

/-- `ShardedModelV2._grad_post_backward_hook`: no-op on an absent gradient;
assert the gradient needs no further differentiation; return immediately in
no-sync mode; otherwise cast/predivide the cloned gradient and either queue
its padded chunk set on the bucketer (several workers) or run the completion
callback directly (single worker), handing a storage-freed placeholder back
to autograd. -/
def _grad_post_backward_hook (cfg : Cfg) (sync : Bool) (r : Bucketer) (idx : ℕ)
    (p : Param) (grad : Option Tensor) : Bucketer × Param × HookResult :=
  match grad with
  | none => (r, p, HookResult.returned none)
  | some g =>
      if g.requiresGrad = true then (r, p, HookResult.errored Err.precisionError)
      else if sync = false then (r, p, HookResult.returned none)
      else
        let ng := if cfg.fp32_reduce_scatter then { g with dtype := p.data.dtype } else g
        let ng := if 1 < cfg.gradient_predivide_factor then
            { ng with data := ng.data.map (fun x => x / cfg.gradient_predivide_factor) }
          else ng
        if 1 < cfg.world_size then
          ({ pending := r.pending ++ [(idx, chunk_and_pad ng cfg.world_size)] }, p,
           HookResult.returned (some { g with data := [] }))
        else
          (r, _reduce_scatter_callback cfg p ng,
           HookResult.returned (some { g with data := [] }))

/-- Strategy operations invoked during a state-dict call, for the frame
record of `state_dict`/`load_state_dict`. -/
inductive StratCall
  | gatherOp
  | shardOp
  deriving DecidableEq, Repr

/-- The parameters as seen by the wrapped module's state-dict export: every
sharded data tensor gathered and installed as the active `p.data`. -/
def gathered_params (st : Strategy) (s : State) : List Param :=
  (s.params.map (fun p => { p with col_attr := { p.col_attr with
      sharded_data_tensor := st.gatherFn p.col_attr.sharded_data_tensor } })).map
    (fun p => { p with data := p.col_attr.sharded_data_tensor.payload })

/-- `ShardedModelV2.state_dict`: gather every parameter, point `p.data` at
the gathered payload, run the wrapped module's export, then re-shard and
restore the saved `p.data` — with no exception handler, so a failing export
propagates before the re-shard/restore steps run. -/
def state_dict (st : Strategy) (ex : List Param → Except Err (List (String × Tensor)))
    (s : State) : State × List StratCall × Except Err (List (String × Tensor)) :=
  match ex (gathered_params st s) with
  | Except.error e =>
      ({ s with params := gathered_params st s }, [StratCall.gatherOp], Except.error e)
  | Except.ok sd =>
      ({ s with params :=
                  List.zipWith (fun (orig q : Param) => { q with data := orig.data }) s.params
                    ((gathered_params st s).map (fun p =>
                      { p with col_attr := { p.col_attr with
                          sharded_data_tensor := st.shardFn p.col_attr.sharded_data_tensor } })) },
       [StratCall.gatherOp, StratCall.shardOp], Except.ok sd)

/-- `ShardedModelV2.load_state_dict`: unconditionally raises
`NotImplementedError`; no strategy call is made and the state is untouched. -/
def load_state_dict (s : State) (sd : List (String × Tensor)) (strict : Bool) :
    State × List StratCall × Option Err :=
  (s, [], some Err.notImplemented)

/-- The wrapped module as seen by the sequence pass-through methods. -/
structure WrappedModule where
  is_module_list : Bool
  submodules : List ℕ
  deriving DecidableEq, Repr

/-- `ShardedModelV2.__getitem__`: assert the wrapped module is an
`nn.ModuleList`, then delegate the indexing unchanged. -/
def __getitem__ (m : WrappedModule) (idx : ℕ) : Except Err (Option ℕ) :=
  if m.is_module_list then Except.ok (m.submodules.get? idx)
  else Except.error Err.assertError

/-- `ShardedModelV2.__len__`: assert the wrapped module is an
`nn.ModuleList`, then delegate `len` unchanged. -/
def __len__ (m : WrappedModule) : Except Err ℕ :=
  if m.is_module_list then Except.ok m.submodules.length
  else Except.error Err.assertError

/-- `ShardedModelV2.__iter__`: assert the wrapped module is an
`nn.ModuleList`, then delegate iteration unchanged. -/
def __iter__ (m : WrappedModule) : Except Err (List ℕ) :=
  if m.is_module_list then Except.ok m.submodules
  else Except.error Err.assertError

/-- The memstats side of `ShardedModelV2.forward`: on the first call of
iteration 0, open the collection window. -/
def forward_start (s : State) : State :=
  if s.iter_cnter = 0 then
    { s with memstats := s.memstats.map MemStatsCollector.start_collection }
  else s

/-- Feed a sequence of overall-usage probes to the collector (the sampling
performed by the external operation hooks during one forward/backward). -/
def apply_samples (vs : List ℚ) (s : State) : State :=
  { s with memstats := s.memstats.map (fun c => vs.foldl MemStatsCollector.sample_memstats c) }

/-- One training iteration as the memory tracker sees it: the forward-entry
window management, the samples of the pass, then `_update_memstats`. -/
def next_iteration (capacity : ℚ) (vs : List ℚ) (s : State) : State :=
  (_update_memstats capacity (apply_samples vs (forward_start s))).1

/-- A run of consecutive training iterations, each with its own sample
sequence. -/
def run_iterations (capacity : ℚ) (vss : List (List ℚ)) (s : State) : State :=
  vss.foldl (fun t vs => next_iteration capacity vs t) s

/-- The memstats collector, when present, holds at least one sample (the
condition under which `_update_memstats` does not raise). -/
def mem_ok (s : State) : Prop :=
  ∀ c, s.memstats = some c → (list_max c.overall_cuda).isSome = true

/- Concrete instances used by the witness theorems. -/

/-- A small fp16 tensor on the device. -/
def tA : Tensor :=
  { data := [1, 2], dtype := DType.fp16, device := Device.cuda, requiresGrad := false }

/-- A small fp32 tensor on the device. -/
def tB : Tensor :=
  { data := [3, 4], dtype := DType.fp32, device := Device.cuda, requiresGrad := false }

/-- A sharded record with no pending gradient buffers. -/
def recA : ShardRecord :=
  { sharded_data_tensor := { payload := tB, is_sharded := true },
    fp16_grad := none, fp32_grad := none, offload_grad := false, bwd_count := 0 }

/-- An unsharded record with no pending gradient buffers. -/
def recB : ShardRecord :=
  { sharded_data_tensor := { payload := tB, is_sharded := false },
    fp16_grad := none, fp32_grad := none, offload_grad := false, bwd_count := 0 }

/-- A sharded record holding a pending fp16 gradient. -/
def recC : ShardRecord :=
  { sharded_data_tensor := { payload := tB, is_sharded := true },
    fp16_grad := some tA, fp32_grad := none, offload_grad := false, bwd_count := 3 }

/-- A sharded record holding a pending fp32 accumulator. -/
def recD : ShardRecord :=
  { sharded_data_tensor := { payload := tB, is_sharded := true },
    fp16_grad := none, fp32_grad := some tB, offload_grad := false, bwd_count := 1 }

/-- A trainable parameter carrying a pending fp16 gradient. -/
def pC : Param :=
  { requires_grad := true, data := tB, grad := some tB, col_attr := recC }

/-- A trainable parameter carrying a pending fp32 accumulator. -/
def pD : Param :=
  { requires_grad := true, data := tB, grad := some tB, col_attr := recD }

/-- A strategy whose shard action marks records sharded and whose gather
action marks them unsharded (values untouched). -/
def stMark : Strategy :=
  { shardFn := fun t => { t with is_sharded := true },
    gatherFn := fun t => { t with is_sharded := false } }

/-- The identity strategy (trivially satisfies the gather/shard round-trip
contract). -/
def stId : Strategy :=
  { shardFn := fun t => t, gatherFn := fun t => t }

/-- A collective delivery returning a fixed tensor. -/
def dlConst : Deliver := fun _ _ => tB

/-- A state-dict export that always fails. -/
def exFail : List Param → Except Err (List (String × Tensor)) :=
  fun _ => Except.error Err.valueError

/-- A state-dict export that returns an empty dict. -/
def exEmpty : List Param → Except Err (List (String × Tensor)) :=
  fun _ => Except.ok []

/-- Equality of `Except` results is decidable when both components are. -/
instance exceptDecEq {ε α : Type} [DecidableEq ε] [DecidableEq α] :
    DecidableEq (Except ε α) := fun x y =>
  match x, y with
  | Except.ok a, Except.ok b =>
      if h : a = b then isTrue (by rw [h]) else isFalse (by simp [h])
  | Except.error a, Except.error b =>
      if h : a = b then isTrue (by rw [h]) else isFalse (by simp [h])
  | Except.ok _, Except.error _ => isFalse (fun hc => Except.noConfusion hc)
  | Except.error _, Except.ok _ => isFalse (fun hc => Except.noConfusion hc)

/-- Construction arguments for the predivide-product witness. -/
def argsC2 : InitArgs :=
  { params := [], world_size := 4, gradient_predivide_factor := none,
    fp32_reduce_scatter := false, offload_cpu := false,
    use_memory_tracer := false, reuse_fp16_shard := false }

/-- The configuration produced by constructing over `argsC2` (the
postdivide factor is kept as the quotient the constructor computes). -/
def cfgC2 : Cfg :=
  { world_size := 4, shard_param := true, reuse_fp16_shard := false,
    fp32_reduce_scatter := false, cpu_offload := false,
    gradient_predivide_factor := 2, gradient_postdivide_factor := (4 : ℚ) / 2 }

/-- The state produced by constructing over `argsC2`. -/
def stateC2 : State :=
  { params := [], require_backward_grad_sync := true, iter_cnter := 0,
    cuda_margin_space := 0, memstats := none, reducer := { pending := [] } }

/-- A pre-construction parameter whose record is sharded. -/
def ppSharded : PreParam :=
  { requires_grad := true, data := tB, grad := none, col_attr := some recA }

/-- A pre-construction parameter whose record is unsharded. -/
def ppUnsharded : PreParam :=
  { requires_grad := true, data := tB, grad := none, col_attr := some recB }

/-- Mixed-sharding construction arguments. -/
def argsC6 : InitArgs :=
  { params := [ppSharded, ppUnsharded], world_size := 2,
    gradient_predivide_factor := some 1, fp32_reduce_scatter := false,
    offload_cpu := false, use_memory_tracer := false, reuse_fp16_shard := false }

/-- A non-reuse configuration over two workers. -/
def cfgPlain : Cfg :=
  { world_size := 2, shard_param := true, reuse_fp16_shard := false,
    fp32_reduce_scatter := false, cpu_offload := false,
    gradient_predivide_factor := 1, gradient_postdivide_factor := 2 }

/-- A gradient-storage-reuse configuration over two workers. -/
def cfgReuse : Cfg :=
  { world_size := 2, shard_param := true, reuse_fp16_shard := true,
    fp32_reduce_scatter := false, cpu_offload := false,
    gradient_predivide_factor := 1, gradient_postdivide_factor := 2 }

/-- A one-parameter state with a pending fp16 gradient, ready for
reconciliation. -/
def stateC1 : State :=
  { params := [pC], require_backward_grad_sync := true, iter_cnter := 0,
    cuda_margin_space := 0, memstats := none, reducer := { pending := [] } }

/-- A one-parameter state carrying an fp32 accumulator, ready for
reconciliation. -/
def stateC7 : State :=
  { params := [pD], require_backward_grad_sync := true, iter_cnter := 0,
    cuda_margin_space := 0, memstats := none, reducer := { pending := [] } }

/-- A one-parameter state for the state-dict frame witnesses. -/
def stateC9 : State :=
  { params := [{ requires_grad := true, data := tB, grad := none, col_attr := recA }],
    require_backward_grad_sync := true, iter_cnter := 0,
    cuda_margin_space := 0, memstats := none, reducer := { pending := [] } }

/-- A collector that recorded the samples 3 and 5 during its window. -/
def collC4 : MemStatsCollector :=
  { start_flag := true, overall_cuda := [3, 5], sampling_cnt := 2 }

/-- A state at the end of the sampling iteration's backward pass. -/
def stateC4 : State :=
  { params := [], require_backward_grad_sync := true, iter_cnter := 0,
    cuda_margin_space := 0, memstats := some collC4, reducer := { pending := [] } }

/-- A wrapped module that is not an `nn.ModuleList`. -/
def mPlain : WrappedModule := { is_module_list := false, submodules := [] }

/-- A wrapped module that is an `nn.ModuleList` of two sub-modules. -/
def mList : WrappedModule := { is_module_list := true, submodules := [5, 7] }

/-- C8: `load_state_dict` fails unconditionally with the
unsupported-operation error, makes no gather/shard strategy call, and
leaves the whole state exactly as it was before the call. -/
theorem claim8_load_state_dict (s : State) (sd : List (String × Tensor)) (strict : Bool) :
    load_state_dict s sd strict = (s, [], some Err.notImplemented) := rfl

/-- C10: the sequence pass-through methods `__getitem__`, `__len__` and
`__iter__` fail with an assertion error whenever the wrapped module is not
an `nn.ModuleList`, and delegate unchanged to the wrapped module's own
indexing, length and iteration when it is. -/
theorem claim10_passthrough (m : WrappedModule) (idx : ℕ) :
    (m.is_module_list = false →
      __getitem__ m idx = Except.error Err.assertError ∧
      __len__ m = Except.error Err.assertError ∧
      __iter__ m = Except.error Err.assertError) ∧
    (m.is_module_list = true →
      __getitem__ m idx = Except.ok (m.submodules.get? idx) ∧
      __len__ m = Except.ok m.submodules.length ∧
      __iter__ m = Except.ok m.submodules) := by
  constructor <;> intro h <;>
    simp [__getitem__, __len__, __iter__, h]

/-- Witness for C10 at two concrete wrapped modules: a non-`ModuleList`
module makes the pass-through methods fail, a `ModuleList` delegates. -/
theorem claim10_witness :
    __getitem__ mPlain 0 = Except.error Err.assertError ∧
    __len__ mPlain = Except.error Err.assertError ∧
    __getitem__ mList 0 = Except.ok (some 5) ∧
    __len__ mList = Except.ok 2 ∧
    __iter__ mList = Except.ok [5, 7] := by
  have h1 := (claim10_passthrough mPlain 0).1 rfl
  have h2 := (claim10_passthrough mList 0).2 rfl
  exact ⟨h1.1, h1.2.1, h2.1, h2.2.1, h2.2.2⟩

/-- C3: when synchronisation is disabled, the gradient-completion hook
returns immediately (Python's bare `return`), submits nothing to the
bucketer and leaves the parameter's shard record — hence its previously
accumulated gradient — untouched (provided the gradient, when present,
does not itself require differentiation, which would instead raise the
precision assert before the no-sync check). -/
theorem claim3_nosync_hook (cfg : Cfg) (r : Bucketer) (idx : ℕ) (p : Param)
    (g? : Option Tensor) (h : ∀ g, g? = some g → g.requiresGrad = false) :
    _grad_post_backward_hook cfg false r idx p g? = (r, p, HookResult.returned none) := by
  cases g? with
  | none => rfl
  | some g =>
      have hg := h g rfl
      simp [_grad_post_backward_hook, hg]

/-- Witness for C3: a concrete no-sync hook firing returns immediately with
the bucketer and the parameter unchanged. -/
theorem claim3_witness :
    _grad_post_backward_hook cfgPlain false { pending := [] } 0 pC (some tA)
      = ({ pending := [] }, pC, HookResult.returned none) :=
  claim3_nosync_hook cfgPlain { pending := [] } 0 pC (some tA)
    (by intro g hg; cases hg; rfl)

/-- C2: every successful construction satisfies
`gradient_predivide_factor * gradient_postdivide_factor = world_size`,
whether the predivide factor was supplied or derived. -/
theorem claim2_predivide_product (a : InitArgs) (cfg : Cfg) (s : State)
    (h : init_model a = Except.ok (cfg, s)) :
    cfg.gradient_predivide_factor * cfg.gradient_postdivide_factor
      = (a.world_size : ℚ) := by
  unfold init_model at h
  split at h
  · split at h
    · split at h
      · exact absurd h (by simp)
      · simp only [Except.ok.injEq, Prod.mk.injEq] at h
        obtain ⟨hc, -⟩ := h
        subst hc
        simp only []
        rw [mul_comm]
        exact div_mul_cancel₀ _ (by assumption)
    · exact absurd h (by simp)
  · exact absurd h (by simp)

/-- Witness for C2: constructing over four workers with a derived predivide
factor yields factors 2 and 2, whose product is the worker count. -/
theorem claim2_witness :
    cfgC2.gradient_predivide_factor * cfgC2.gradient_postdivide_factor
      = (argsC2.world_size : ℚ) :=
  claim2_predivide_product argsC2 cfgC2 stateC2 rfl

/-- C6: construction over a module in which some parameter lacks its shard
record, or in which some parameters are sharded and others are not, fails
with the configuration error (before any forward call can run, since no
instance is produced). -/
theorem claim6_mixed_sharding (a : InitArgs)
    (h : (∃ p ∈ a.params, p.col_attr = none) ∨
         ((∃ p ∈ a.params, ∃ c, p.col_attr = some c ∧ c.param_is_sharded = true) ∧
          (∃ q ∈ a.params, ∃ d, q.col_attr = some d ∧ d.param_is_sharded = false))) :
    init_model a = Except.error Err.configError := by
  unfold init_model
  split
  · rename_i hall
    split
    · rename_i hflags
      exfalso
      rcases h with ⟨p, hp, hnone⟩ | ⟨⟨p, hp, c, hc, hcs⟩, ⟨q, hq, d, hd, hds⟩⟩
      · have := List.all_eq_true.mp hall p hp
        rw [hnone] at this
        simp at this
      · have htrue : true ∈ sharded_flags a := by
          rw [sharded_flags, List.mem_filterMap]
          exact ⟨p, hp, by rw [hc]; simp [hcs]⟩
        have hfalse : false ∈ sharded_flags a := by
          rw [sharded_flags, List.mem_filterMap]
          exact ⟨q, hq, by rw [hd]; simp [hds]⟩
        have hflags' : (sharded_flags a).all (fun b => b) = true ∨
            (sharded_flags a).all (fun b => !b) = true := by
          simpa using hflags
        rcases hflags' with h1 | h1
        · have := List.all_eq_true.mp h1 false hfalse
          simp at this
        · have := List.all_eq_true.mp h1 true htrue
          simp at this
    · rfl
  · rfl

/-- Witness for C6: one sharded and one unsharded parameter make
construction fail with the configuration error. -/
theorem claim6_witness :
    init_model argsC6 = Except.error Err.configError :=
  claim6_mixed_sharding argsC6
    (Or.inr ⟨⟨ppSharded, by decide, recA, by decide, by decide⟩,
             ⟨ppUnsharded, by decide, recB, by decide, by decide⟩⟩)

/-- C9 counterexample: when the wrapped module's state-dict export raises,
`state_dict` propagates the error before re-sharding or restoring `p.data`,
so the parameter is left gathered (its sharding state differs from the
pre-call state): the claimed restoration on every exit path fails. -/
theorem claim9_counterexample :
    (state_dict stMark exFail stateC9).2.2 = Except.error Err.valueError ∧
    ((state_dict stMark exFail stateC9).1.params.getD 0 default_param).col_attr.sharded_data_tensor.is_sharded = false ∧
    ((stateC9.params.getD 0 default_param).col_attr.sharded_data_tensor.is_sharded = true) ∧
    (state_dict stMark exFail stateC9).1 ≠ stateC9 := by
  refine ⟨rfl, rfl, rfl, by decide⟩

/-- Restoring `data` from the original list after an elementwise transform:
when overwriting the transform's `data` with the original one recovers the
original parameter, zipping the restore over the transformed list is the
identity. -/
theorem zipWith_restore (h : Param → Param)
    (hh : ∀ p : Param, { h p with data := p.data } = p) :
    ∀ l : List Param,
      List.zipWith (fun (orig q : Param) => { q with data := orig.data }) l (l.map h) = l := by
  intro l
  induction l with
  | nil => rfl
  | cons p t ih => simp [ih, hh p]

/-- C9 amended: on the normal-return path (the wrapped export succeeds) and
under the strategy round-trip contract (`shard` after `gather` restores the
record), `state_dict` performs a gather and a shard and returns with every
parameter's sharding state and local data restored to their pre-call
values; when the export raises, the re-shard and restore are skipped and
parameters are left gathered. -/
theorem claim9_amended (st : Strategy)
    (ex : List Param → Except Err (List (String × Tensor)))
    (s : State) (sd : List (String × Tensor))
    (hrt : ∀ t, st.shardFn (st.gatherFn t) = t)
    (hex : ex (gathered_params st s) = Except.ok sd) :
    state_dict st ex s = (s, [StratCall.gatherOp, StratCall.shardOp], Except.ok sd) := by
  have h1 : state_dict st ex s
      = ({ s with params :=
                    List.zipWith (fun (orig q : Param) => { q with data := orig.data }) s.params
                      ((gathered_params st s).map (fun p =>
                        { p with col_attr := { p.col_attr with
                            sharded_data_tensor := st.shardFn p.col_attr.sharded_data_tensor } })) },
         [StratCall.gatherOp, StratCall.shardOp], Except.ok sd) := by
    unfold state_dict
    rw [hex]
  have hmap : (gathered_params st s).map (fun p =>
      { p with col_attr := { p.col_attr with
          sharded_data_tensor := st.shardFn p.col_attr.sharded_data_tensor } })
      = s.params.map (fun p =>
          { p with
             data := (st.gatherFn p.col_attr.sharded_data_tensor).payload,
             col_attr := { p.col_attr with
               sharded_data_tensor := st.shardFn (st.gatherFn p.col_attr.sharded_data_tensor) } }) := by
    simp only [gathered_params, List.map_map]
    rfl
  have hh : ∀ p : Param,
      ({ ({ p with
             data := (st.gatherFn p.col_attr.sharded_data_tensor).payload,
             col_attr := { p.col_attr with
               sharded_data_tensor := st.shardFn (st.gatherFn p.col_attr.sharded_data_tensor) } } : Param)
          with data := p.data } : Param) = p := by
    intro p
    rcases p with ⟨rq, dt, gr, ⟨sdt, f16, f32, off, bc⟩⟩
    simp [hrt]
  rw [h1, hmap, zipWith_restore _ hh s.params]

/-- Witness for C9 amended: with the identity strategy (which satisfies the
round-trip contract) and a succeeding export, `state_dict` returns the
state unchanged. -/
theorem claim9_witness :
    state_dict stId exEmpty stateC9
      = (stateC9, [StratCall.gatherOp, StratCall.shardOp], Except.ok []) :=
  claim9_amended stId exEmpty stateC9 [] (fun t => rfl) rfl

/-- Samples fed to a collector whose window is closed are dropped. -/
theorem samples_noop (c : MemStatsCollector) (hc : c.start_flag = false) :
    ∀ vs : List ℚ, vs.foldl MemStatsCollector.sample_memstats c = c := by
  intro vs
  induction vs with
  | nil => rfl
  | cons v vs ih =>
      have h1 : MemStatsCollector.sample_memstats c v = c := by
        simp [MemStatsCollector.sample_memstats, hc]
      simp [List.foldl, h1, ih]

/-- After the sampling iteration, every further iteration leaves the margin
space at capacity minus the recorded peak: the window stays closed, later
samples are dropped, and the recomputed maximum is unchanged. -/
theorem run_iterations_margin (capacity P : ℚ) (vss : List (List ℚ)) :
    ∀ t : State, t.iter_cnter ≠ 0 →
      (∃ c', t.memstats = some c' ∧ c'.start_flag = false ∧
        list_max c'.overall_cuda = some P) →
      t.cuda_margin_space = capacity - P →
      (run_iterations capacity vss t).cuda_margin_space = capacity - P := by
  induction vss with
  | nil => intro t _ _ h3; exact h3
  | cons vs vss ih =>
      rintro t h1 ⟨c', hc, hflag, hmax⟩ h3
      have hfwd : forward_start t = t := by
        simp [forward_start, h1]
      have hsamp : apply_samples vs t = t := by
        simp [apply_samples, hc, samples_noop c' hflag vs]
        rw [← hc]
      have hnext : next_iteration capacity vs t
          = { t with memstats := some c'.reset_sampling_cnter,
                     cuda_margin_space := capacity - P,
                     iter_cnter := t.iter_cnter + 1 } := by
        simp [next_iteration, hfwd, hsamp, _update_memstats, hc, h1,
          MemStatsCollector.reset_sampling_cnter, hmax]
      show (run_iterations capacity (vs :: vss) t).cuda_margin_space = capacity - P
      have hrw : run_iterations capacity (vs :: vss) t
          = run_iterations capacity vss (next_iteration capacity vs t) := rfl
      rw [hrw, hnext]
      exact ih _ (by simp) ⟨c'.reset_sampling_cnter, rfl, hflag, hmax⟩ rfl

/-- C4: after the designated sampling iteration finishes with recorded peak
overall usage `P` and device capacity `C`, the update succeeds, the margin
space equals `C − P`, and its value is unaffected by samples taken during
any sequence of subsequent (non-sampling) iterations' passes. -/
theorem claim4_margin_space (capacity : ℚ) (s : State) (c : MemStatsCollector) (P : ℚ)
    (hms : s.memstats = some c) (hiter : s.iter_cnter = 0)
    (hP : list_max c.overall_cuda = some P) :
    (_update_memstats capacity s).2 = none ∧
    ((_update_memstats capacity s).1).cuda_margin_space = capacity - P ∧
    ∀ vss : List (List ℚ),
      (run_iterations capacity vss ((_update_memstats capacity s).1)).cuda_margin_space
        = capacity - P := by
  have hupd : _update_memstats capacity s
      = ({ s with memstats := some (c.finish_collection.reset_sampling_cnter),
                  cuda_margin_space := capacity - P,
                  iter_cnter := s.iter_cnter + 1 }, none) := by
    simp [_update_memstats, hms, hiter, MemStatsCollector.finish_collection,
      MemStatsCollector.reset_sampling_cnter, hP]
  refine ⟨by rw [hupd], by rw [hupd], ?_⟩
  intro vss
  rw [hupd]
  exact run_iterations_margin capacity P vss _ (by simp)
    ⟨c.finish_collection.reset_sampling_cnter, rfl, rfl, hP⟩ rfl

/-- `reset_count` only touches the backward-fire counter: `requires_grad`
projection. -/
@[simp] theorem reset_count_requires_grad (p : Param) :
    (reset_count p).requires_grad = p.requires_grad := rfl

/-- `reset_count` only touches the backward-fire counter: `grad`
projection. -/
@[simp] theorem reset_count_grad (p : Param) : (reset_count p).grad = p.grad := rfl

/-- `reset_count` only touches the backward-fire counter: `data`
projection. -/
@[simp] theorem reset_count_data (p : Param) : (reset_count p).data = p.data := rfl

/-- One reconciliation step, then another: the second pass never changes
the published gradient; an error on the first pass means an error on the
second; and a single pass never changes the record's sharding flag. -/
theorem step_param_props (cfg : Cfg) (sc : Bool) (p : Param) :
    ((step_param cfg sc (step_param cfg sc p).1).1).grad = ((step_param cfg sc p).1).grad ∧
    (((step_param cfg sc p).2).isSome = true →
      ((step_param cfg sc (step_param cfg sc p).1).2).isSome = true) ∧
    ((step_param cfg sc p).1).col_attr.sharded_data_tensor.is_sharded
      = p.col_attr.sharded_data_tensor.is_sharded := by
  rcases cfg with ⟨ws, sp, ru, frs, cpo, pre, post⟩
  rcases p with ⟨rq, dt, gr, ⟨⟨pl, ish⟩, f16, f32, off, bc⟩⟩
  cases rq
  · exact ⟨rfl, fun h => Bool.noConfusion h, rfl⟩
  · cases sc
    · exact ⟨rfl, fun h => Bool.noConfusion h, rfl⟩
    · cases ru
      -- gradient-storage-reuse disabled
      · rcases f16 with _ | g
        · exact ⟨rfl, fun _ => rfl, rfl⟩
        · rcases f32 with _ | a
          · rcases gr with _ | g0
            · exact ⟨rfl, fun _ => rfl, rfl⟩
            · exact ⟨rfl, fun h => Bool.noConfusion h, rfl⟩
          · cases off
            · by_cases hlen : a.data.length ≠ (cast_tensor_to_fp32 g).data.length
              · simp [step_param, reset_count, step_sync, hlen]
              · rcases gr with _ | g0
                · simp [step_param, reset_count, step_sync, hlen, List.length_zipWith,
                    not_not.mp hlen]
                · simp [step_param, reset_count, step_sync, hlen]
            · by_cases hlen : a.data.length ≠ (toCpu (cast_tensor_to_fp32 g)).data.length
              · simp [step_param, reset_count, step_sync, hlen]
              · rcases gr with _ | g0
                · simp [step_param, reset_count, step_sync, hlen, List.length_zipWith,
                    not_not.mp hlen]
                · simp [step_param, reset_count, step_sync, hlen]
      -- gradient-storage-reuse enabled
      · rcases f32 with _ | a
        · rcases gr with _ | g0
          · cases off <;> exact ⟨rfl, fun _ => rfl, rfl⟩
          · cases off <;> exact ⟨rfl, fun h => Bool.noConfusion h, rfl⟩
        · cases off <;> exact ⟨rfl, fun _ => rfl, rfl⟩

/-- A non-trainable parameter's reconciliation step only resets the
backward-fire counter. -/
theorem step_param_not_required (cfg : Cfg) (sc : Bool) (p : Param)
    (h : p.requires_grad = false) :
    step_param cfg sc p = (reset_count p, none) := by
  simp [step_param, h]

/-- In reuse mode, a trainable parameter holding an fp32 accumulator makes
the reconciliation step fail with the configuration error. -/
theorem step_reuse_fp32 (cfg : Cfg) (p : Param) (a : Tensor)
    (hru : cfg.reuse_fp16_shard = true) (hrq : p.requires_grad = true)
    (ha : p.col_attr.fp32_grad = some a) :
    (step_param cfg true p).2 = some Err.configError := by
  cases hoff : p.col_attr.offload_grad <;>
    simp [step_param, step_sync, reset_count, hrq, hru, ha, hoff]

/-- In reuse mode, a trainable parameter with no fp32 accumulator and a
present published gradient steps without error. -/
theorem step_reuse_ok (cfg : Cfg) (p : Param)
    (hru : cfg.reuse_fp16_shard = true) (hrq : p.requires_grad = true)
    (hf32 : p.col_attr.fp32_grad = none) (hgr : (p.grad).isSome = true) :
    (step_param cfg true p).2 = none := by
  obtain ⟨g0, hg0⟩ := Option.isSome_iff_exists.mp hgr
  cases hoff : p.col_attr.offload_grad <;>
    simp [step_param, step_sync, reset_count, hrq, hru, hf32, hg0, hoff]

/-- The reconciliation loop preserves any parameter property that each
step preserves (an error leaves the remaining parameters untouched, so the
property survives there as well). -/
theorem param_loop_pres (cfg : Cfg) (sc : Bool) (Pred : Param → Prop)
    (hstep : ∀ p, Pred p → Pred ((step_param cfg sc p).1)) :
    ∀ ps : List Param, (∀ p ∈ ps, Pred p) →
      ∀ q ∈ (param_loop cfg sc ps).1, Pred q := by
  intro ps
  induction ps with
  | nil => simp [param_loop]
  | cons p rest ih =>
      intro h q hq
      rcases hst : step_param cfg sc p with ⟨p1, e1⟩
      cases e1 with
      | some e =>
          rw [param_loop, hst] at hq
          rcases List.mem_cons.mp hq with hq1 | hq2
          · subst hq1
            have := hstep p (h p (List.mem_cons_self p rest))
            rwa [hst] at this
          · exact h q (List.mem_cons_of_mem p hq2)
      | none =>
          rw [param_loop, hst] at hq
          rcases List.mem_cons.mp hq with hq1 | hq2
          · subst hq1
            have := hstep p (h p (List.mem_cons_self p rest))
            rwa [hst] at this
          · exact ih (fun r hr => h r (List.mem_cons_of_mem p hr)) q hq2

/-- Running the reconciliation loop twice in a row leaves every published
gradient as the first run left it. -/
theorem loop_grads_stable (cfg : Cfg) (sc : Bool) :
    ∀ ps : List Param,
      ((param_loop cfg sc (param_loop cfg sc ps).1).1).map Param.grad
        = ((param_loop cfg sc ps).1).map Param.grad := by
  intro ps
  induction ps with
  | nil => rfl
  | cons p rest ih =>
      rcases h1 : step_param cfg sc p with ⟨p1, e1⟩
      rcases h2 : step_param cfg sc p1 with ⟨p2, e2⟩
      have hg : p2.grad = p1.grad := by
        have := (step_param_props cfg sc p).1
        rw [h1] at this
        simp only at this
        rw [h2] at this
        exact this
      cases e1 with
      | some e =>
          have hsome : e2.isSome = true := by
            have := (step_param_props cfg sc p).2.1
            rw [h1] at this
            simp only at this
            rw [h2] at this
            exact this (by rfl)
          obtain ⟨e2v, he2v⟩ := Option.isSome_iff_exists.mp hsome
          subst he2v
          simp [param_loop, h1, h2, hg]
      | none =>
          cases e2 with
          | some e2v =>
              simp [param_loop, h1, h2, hg]
          | none =>
              simp [param_loop, h1, h2, hg, ih]

/-- Closing the window does not change the recorded samples. -/
@[simp] theorem finish_collection_overall (c : MemStatsCollector) :
    (c.finish_collection).overall_cuda = c.overall_cuda := rfl

/-- Resetting the sampling counter does not change the recorded samples. -/
@[simp] theorem reset_sampling_overall (c : MemStatsCollector) :
    (c.reset_sampling_cnter).overall_cuda = c.overall_cuda := rfl

/-- Resetting the sampling counter does not change the window flag. -/
@[simp] theorem reset_sampling_flag (c : MemStatsCollector) :
    (c.reset_sampling_cnter).start_flag = c.start_flag := rfl

/-- The three possible outcomes of `_update_memstats`: no collector (only
the iteration counter advances), a collector with no recorded sample (the
`ValueError` of Python's `max`, with the state mutated up to that point),
or a collector with a recorded peak (margin recomputed, counter advanced). -/
theorem _update_memstats_cases (capacity : ℚ) (s : State) :
    (s.memstats = none ∧
      _update_memstats capacity s = ({ s with iter_cnter := s.iter_cnter + 1 }, none)) ∨
    (∃ c, s.memstats = some c ∧ list_max c.overall_cuda = none ∧
      _update_memstats capacity s
        = ({ s with memstats := some ((if s.iter_cnter = 0 then c.finish_collection else c).reset_sampling_cnter) },
           some Err.valueError)) ∨
    (∃ c m, s.memstats = some c ∧ list_max c.overall_cuda = some m ∧
      _update_memstats capacity s
        = ({ s with memstats := some ((if s.iter_cnter = 0 then c.finish_collection else c).reset_sampling_cnter),
                    cuda_margin_space := capacity - m,
                    iter_cnter := s.iter_cnter + 1 }, none)) := by
  rcases hms : s.memstats with _ | c
  · exact Or.inl ⟨rfl, by simp [_update_memstats, hms]⟩
  · rcases hmax : list_max c.overall_cuda with _ | m
    · refine Or.inr (Or.inl ⟨c, rfl, hmax, ?_⟩)
      by_cases hit : s.iter_cnter = 0 <;>
        simp [_update_memstats, hms, hit, hmax]
    · refine Or.inr (Or.inr ⟨c, m, rfl, hmax, ?_⟩)
      by_cases hit : s.iter_cnter = 0 <;>
        simp [_update_memstats, hms, hit, hmax]

/-- Flushing an empty pending queue changes nothing. -/
theorem flush_pending_nil (dl : Deliver) (cfg : Cfg) (ps : List Param) :
    flush_pending dl cfg ps [] = ps := rfl

/-- After the safety-net re-shard (with sharding enabled and a strategy
that marks records sharded), every record is sharded. -/
theorem shard_unfired_all (st : Strategy) (cfg : Cfg) (ps : List Param)
    (hsp : cfg.shard_param = true) (hsh : ∀ t, (st.shardFn t).is_sharded = true) :
    ∀ p ∈ shard_unfired st cfg ps, p.col_attr.param_is_sharded = true := by
  intro p hp
  rw [shard_unfired, if_pos hsp] at hp
  rcases List.mem_map.mp hp with ⟨q, hq, rfl⟩
  by_cases hqs : q.col_attr.param_is_sharded = true
  · simp [hqs]
  · rw [if_neg hqs]
    simp [ShardRecord.param_is_sharded, hsh]

/-- The safety-net re-shard is the identity on a list of already-sharded
records. -/
theorem shard_unfired_id (st : Strategy) (cfg : Cfg) (ps : List Param)
    (hall : ∀ p ∈ ps, p.col_attr.param_is_sharded = true) :
    shard_unfired st cfg ps = ps := by
  unfold shard_unfired
  split
  · have hcong : ∀ p ∈ ps,
        (if p.col_attr.param_is_sharded then p
         else { p with col_attr := { p.col_attr with
                 sharded_data_tensor := st.shardFn p.col_attr.sharded_data_tensor } }) = p := by
      intro p hp
      simp [hall p hp]
    calc ps.map _ = ps.map id := List.map_congr_left hcong
    _ = ps := List.map_id ps
  · rfl

/-- A reconciliation step preserves the record's sharding flag. -/
theorem step_sharded_pres (cfg : Cfg) (sc : Bool) (p : Param) :
    ((step_param cfg sc p).1).col_attr.param_is_sharded = p.col_attr.param_is_sharded := by
  simpa [ShardRecord.param_is_sharded] using (step_param_props cfg sc p).2.2

/-- The shape of `_post_backward_operations` when the memstats update
succeeds. -/
theorem post_backward_ok_shape (st : Strategy) (dl : Deliver) (capacity : ℚ)
    (cfg : Cfg) (s s1 : State)
    (hupd : _update_memstats capacity s = (s1, none)) :
    _post_backward_operations st dl capacity cfg s
      = ({ s1 with
            params := (param_loop cfg s1.require_backward_grad_sync (pre_params st dl cfg s1)).1,
            reducer := { pending := [] } },
         (param_loop cfg s1.require_backward_grad_sync (pre_params st dl cfg s1)).2) := by
  simp [_post_backward_operations, _pre_loop, hupd]

/-- The shape of `_post_backward_operations` when the memstats update
raises. -/
theorem post_backward_err_shape (st : Strategy) (dl : Deliver) (capacity : ℚ)
    (cfg : Cfg) (s s1 : State) (e : Err)
    (hupd : _update_memstats capacity s = (s1, some e)) :
    _post_backward_operations st dl capacity cfg s = (s1, some e) := by
  simp [_post_backward_operations, _pre_loop, hupd]

/-- A successful memstats update preserves the parameters, the sync flag
and the reducer, and any state carrying the resulting collector updates
successfully again (with the same frame). -/
theorem upd_ok_pair (capacity : ℚ) (u u1 : State)
    (hupd : _update_memstats capacity u = (u1, none)) :
    u1.params = u.params ∧
    u1.require_backward_grad_sync = u.require_backward_grad_sync ∧
    u1.reducer = u.reducer ∧
    ∀ v : State, v.memstats = u1.memstats →
      ∃ v1, _update_memstats capacity v = (v1, none) ∧ v1.params = v.params ∧
        v1.require_backward_grad_sync = v.require_backward_grad_sync ∧
        v1.reducer = v.reducer := by
  rcases _update_memstats_cases capacity u with ⟨hms, heq⟩ | ⟨c, hms, hmax, heq⟩ |
    ⟨c, m, hms, hmax, heq⟩
  · have hu1 : u1 = { u with iter_cnter := u.iter_cnter + 1 } := by
      have h := hupd.symm.trans heq
      simpa using h
    subst hu1
    refine ⟨rfl, rfl, rfl, ?_⟩
    intro v hv
    simp only [hms] at hv
    rcases _update_memstats_cases capacity v with ⟨hms2, heq2⟩ | ⟨c2, hms2, _, _⟩ |
      ⟨c2, m2, hms2, _, heq2⟩
    · exact ⟨_, heq2, rfl, rfl, rfl⟩
    · rw [hv] at hms2; cases hms2
    · rw [hv] at hms2; cases hms2
  · have := hupd.symm.trans heq
    simp at this
  · have hu1 : u1 = { u with
        memstats := some ((if u.iter_cnter = 0 then c.finish_collection else c).reset_sampling_cnter),
        cuda_margin_space := capacity - m,
        iter_cnter := u.iter_cnter + 1 } := by
      have h := hupd.symm.trans heq
      simpa using h
    subst hu1
    refine ⟨rfl, rfl, rfl, ?_⟩
    intro v hv
    have hov : ((if u.iter_cnter = 0 then c.finish_collection else c).reset_sampling_cnter).overall_cuda
        = c.overall_cuda := by
      by_cases hit : u.iter_cnter = 0 <;> simp [hit]
    rcases _update_memstats_cases capacity v with ⟨hms2, heq2⟩ | ⟨c2, hms2, hmax2, _⟩ |
      ⟨c2, m2, hms2, hmax2, heq2⟩
    · exact Option.noConfusion (hv.symm.trans hms2)
    · have hceq : (if u.iter_cnter = 0 then c.finish_collection else c).reset_sampling_cnter = c2 :=
        Option.some.inj (hv.symm.trans hms2)
      rw [← hceq, hov, hmax] at hmax2
      cases hmax2
    · exact ⟨_, heq2, rfl, rfl, rfl⟩

/-- C5: running the end-of-backward reconciliation twice in a row, with no
intervening backward pass and no hook firing in between, leaves every
parameter's published gradient exactly as the first run left it (under the
strategy contract that its shard action marks records sharded). -/
theorem claim5_idempotent (st : Strategy) (dl : Deliver) (capacity : ℚ)
    (cfg : Cfg) (s : State)
    (hsh : ∀ t, (st.shardFn t).is_sharded = true) :
    ((_post_backward_operations st dl capacity cfg
        ((_post_backward_operations st dl capacity cfg s).1)).1).params.map Param.grad
      = ((_post_backward_operations st dl capacity cfg s).1).params.map Param.grad := by
  rcases hud : _update_memstats capacity s with ⟨s1, e1⟩
  cases e1 with
  | some e =>
      rw [post_backward_err_shape st dl capacity cfg s s1 e hud]
      rcases _update_memstats_cases capacity s with ⟨hms, heq⟩ | ⟨c, hms, hmax, heq⟩ |
        ⟨c, m, hms, hmax, heq⟩
      · have := hud.symm.trans heq
        simp at this
      · have hs1 : s1 = { s with
            memstats := some ((if s.iter_cnter = 0 then c.finish_collection else c).reset_sampling_cnter) } := by
          have h := hud.symm.trans heq
          simp only [Prod.mk.injEq, Option.some.injEq] at h
          exact h.1
        subst hs1
        have hov : ((if s.iter_cnter = 0 then c.finish_collection else c).reset_sampling_cnter).overall_cuda
            = c.overall_cuda := by
          by_cases hit : s.iter_cnter = 0 <;> simp [hit]
        rcases _update_memstats_cases capacity
            { s with memstats := some ((if s.iter_cnter = 0 then c.finish_collection else c).reset_sampling_cnter) }
          with ⟨hms2, heq2⟩ | ⟨c2, hms2, hmax2, heq2⟩ | ⟨c2, m2, hms2, hmax2, heq2⟩
        · simp at hms2
        · rw [post_backward_err_shape st dl capacity cfg _ _ _ heq2]
        · simp only [Option.some.injEq] at hms2
          rw [← hms2, hov, hmax] at hmax2
          cases hmax2
      · have := hud.symm.trans heq
        simp at this
  | none =>
      obtain ⟨hp1, hsy1, hrd1, hnext⟩ := upd_ok_pair capacity s s1 hud
      rw [post_backward_ok_shape st dl capacity cfg s s1 hud]
      obtain ⟨t1, hud2, htp, hts, htr⟩ := hnext
        { s1 with
            params := (param_loop cfg s1.require_backward_grad_sync (pre_params st dl cfg s1)).1,
            reducer := { pending := [] } } rfl
      rw [post_backward_ok_shape st dl capacity cfg _ t1 hud2]
      have hts' : t1.require_backward_grad_sync = s1.require_backward_grad_sync := hts.trans rfl
      have htp' : t1.params
          = (param_loop cfg s1.require_backward_grad_sync (pre_params st dl cfg s1)).1 :=
        htp.trans rfl
      have htr' : t1.reducer = { pending := [] } := htr.trans rfl
      have hpre2 : pre_params st dl cfg t1
          = shard_unfired st cfg
              ((param_loop cfg s1.require_backward_grad_sync (pre_params st dl cfg s1)).1) := by
        rw [pre_params, htr', htp']
        simp [flush_pending_nil]
      have hshard : shard_unfired st cfg
          ((param_loop cfg s1.require_backward_grad_sync (pre_params st dl cfg s1)).1)
          = (param_loop cfg s1.require_backward_grad_sync (pre_params st dl cfg s1)).1 := by
        cases hsp : cfg.shard_param
        · simp [shard_unfired, hsp]
        · apply shard_unfired_id
          intro p hp
          refine param_loop_pres cfg s1.require_backward_grad_sync
            (fun p => p.col_attr.param_is_sharded = true) ?_ (pre_params st dl cfg s1) ?_ p hp
          · intro p' hp'
            rw [step_sharded_pres]
            exact hp'
          · intro q hq
            exact shard_unfired_all st cfg _ hsp hsh q hq
      simp only [hts', hpre2, hshard]
      exact loop_grads_stable cfg s1.require_backward_grad_sync (pre_params st dl cfg s1)

/-- A reconciliation loop that returns without error stepped every
parameter exactly once, in place. -/
theorem param_loop_ok (cfg : Cfg) (sc : Bool) :
    ∀ ps ps' : List Param, param_loop cfg sc ps = (ps', none) →
      ps'.length = ps.length ∧
      ∀ i, i < ps.length →
        step_param cfg sc (ps.getD i default_param) = (ps'.getD i default_param, none) := by
  intro ps
  induction ps with
  | nil =>
      intro ps' h
      simp only [param_loop, Prod.mk.injEq] at h
      obtain ⟨hps, -⟩ := h
      subst hps
      exact ⟨rfl, fun i hi => absurd hi (by simp)⟩
  | cons p rest ih =>
      intro ps' h
      rcases h1 : step_param cfg sc p with ⟨p1, e1⟩
      cases e1 with
      | some e =>
          rw [param_loop, h1] at h
          simp at h
      | none =>
          rcases h2 : param_loop cfg sc rest with ⟨rest', e2⟩
          rw [param_loop, h1] at h
          simp only [h2, Prod.mk.injEq] at h
          obtain ⟨hps, he2⟩ := h
          subst hps
          obtain ⟨hlen, hsteps⟩ := ih rest' (by rw [h2, he2])
          refine ⟨by simp [hlen], ?_⟩
          intro i hi
          cases i with
          | zero => simpa using h1
          | succ j =>
              have hj : j < rest.length := by simpa using hi
              simpa using hsteps j hj

/-- What a successful synchronising reconciliation step guarantees: the
backward-fire counter is reset, and for a trainable parameter the
authoritative payload is published as the gradient with both internal
buffers cleared. -/
theorem step_ok_spec (cfg : Cfg) (p p' : Param)
    (h : step_param cfg true p = (p', none)) :
    p'.col_attr.bwd_count = 0 ∧
    (p.requires_grad = true →
      p'.grad = authoritative_payload cfg p.col_attr ∧
      p'.col_attr.fp16_grad = none ∧ p'.col_attr.fp32_grad = none) := by
  rcases cfg with ⟨ws, sp, ru, frs, cpo, pre, post⟩
  rcases p with ⟨rq, dt, gr, ⟨⟨pl, ish⟩, f16, f32, off, bc⟩⟩
  cases rq
  · have hp' := congrArg Prod.fst h
    subst hp'
    exact ⟨rfl, fun hrq => Bool.noConfusion hrq⟩
  · cases ru
    · -- reuse disabled
      rcases f16 with _ | g
      · have h2 := congrArg Prod.snd h
        simp [step_param, reset_count, step_sync] at h2
      · rcases f32 with _ | a
        · rcases gr with _ | g0
          · have h2 := congrArg Prod.snd h
            simp [step_param, reset_count, step_sync] at h2
          · have hp' := congrArg Prod.fst h
            subst hp'
            cases off <;> exact ⟨rfl, fun _ => ⟨rfl, rfl, rfl⟩⟩
        · cases off
          · by_cases hlen : a.data.length ≠ (cast_tensor_to_fp32 g).data.length
            · have h2 := congrArg Prod.snd h
              simp [step_param, reset_count, step_sync, hlen] at h2
            · rcases gr with _ | g0
              · have h2 := congrArg Prod.snd h
                simp [step_param, reset_count, step_sync, hlen] at h2
              · have hp' := congrArg Prod.fst h
                subst hp'
                refine ⟨?_, fun _ => ⟨?_, ?_, ?_⟩⟩ <;>
                  simp [step_param, reset_count, step_sync, hlen, authoritative_payload]
          · by_cases hlen : a.data.length ≠ (toCpu (cast_tensor_to_fp32 g)).data.length
            · have h2 := congrArg Prod.snd h
              simp [step_param, reset_count, step_sync, hlen] at h2
            · rcases gr with _ | g0
              · have h2 := congrArg Prod.snd h
                simp [step_param, reset_count, step_sync, hlen] at h2
              · have hp' := congrArg Prod.fst h
                subst hp'
                refine ⟨?_, fun _ => ⟨?_, ?_, ?_⟩⟩ <;>
                  simp [step_param, reset_count, step_sync, hlen, authoritative_payload]
    · -- reuse enabled
      rcases f32 with _ | a
      · rcases gr with _ | g0
        · have h2 := congrArg Prod.snd h
          cases off <;> simp [step_param, reset_count, step_sync] at h2
        · have hp' := congrArg Prod.fst h
          subst hp'
          cases off <;> exact ⟨rfl, fun _ => ⟨rfl, rfl, rfl⟩⟩
      · have h2 := congrArg Prod.snd h
        cases off <;> simp [step_param, reset_count, step_sync] at h2

/-- C1: after a synchronising backward pass, the end-of-backward
reconciliation publishes, for every trainable parameter, the authoritative
gradient payload (the reused sharded payload in reuse mode, otherwise the
fp32 upcast of `fp16_grad`, added into a pre-existing fp32 accumulator) as
the parameter's externally visible gradient, clears both internal gradient
buffers, and resets every backward-fire counter to zero (parameters are
read at the pre-loop state, after the bucket flush and safety-net
re-shard). -/
theorem claim1_publish (st : Strategy) (dl : Deliver) (capacity : ℚ)
    (cfg : Cfg) (s s' : State)
    (hsync : s.require_backward_grad_sync = true)
    (h : _post_backward_operations st dl capacity cfg s = (s', none)) :
    s'.params.length = ((_pre_loop st dl capacity cfg s).1).params.length ∧
    ∀ i, i < s'.params.length →
      (s'.params.getD i default_param).col_attr.bwd_count = 0 ∧
      ((((_pre_loop st dl capacity cfg s).1).params.getD i default_param).requires_grad = true →
        (s'.params.getD i default_param).grad
          = authoritative_payload cfg
              ((((_pre_loop st dl capacity cfg s).1).params.getD i default_param)).col_attr ∧
        (s'.params.getD i default_param).col_attr.fp16_grad = none ∧
        (s'.params.getD i default_param).col_attr.fp32_grad = none) := by
  rcases hud : _update_memstats capacity s with ⟨s1, e1⟩
  cases e1 with
  | some e =>
      rw [post_backward_err_shape st dl capacity cfg s s1 e hud] at h
      simp at h
  | none =>
      rw [post_backward_ok_shape st dl capacity cfg s s1 hud] at h
      simp only [Prod.mk.injEq] at h
      obtain ⟨hs', hlp2⟩ := h
      obtain ⟨-, hsy, -, -⟩ := upd_ok_pair capacity s s1 hud
      rw [hsync] at hsy
      have hpre : (_pre_loop st dl capacity cfg s).1
          = { s1 with params := pre_params st dl cfg s1, reducer := { pending := [] } } := by
        simp [_pre_loop, hud]
      have hloopeq : param_loop cfg s1.require_backward_grad_sync (pre_params st dl cfg s1)
          = ((param_loop cfg s1.require_backward_grad_sync (pre_params st dl cfg s1)).1, none) := by
        rw [← hlp2]
      obtain ⟨hlen, hsteps⟩ :=
        param_loop_ok cfg s1.require_backward_grad_sync (pre_params st dl cfg s1) _ hloopeq
      subst hs'
      rw [hpre]
      simp only [hsy]
      rw [hsy] at hlen hsteps
      refine ⟨hlen, ?_⟩
      intro i hi
      have hi' : i < (pre_params st dl cfg s1).length := by
        rw [← hlen]
        exact hi
      have hstep := hsteps i hi'
      obtain ⟨hbwd, hpub⟩ := step_ok_spec cfg _ _ hstep
      exact ⟨hbwd, hpub⟩

/-- `updateAt` preserves a pointwise property that the update function
preserves. -/
theorem updateAt_pres {α : Type} (P : α → Prop) (f : α → α)
    (hf : ∀ a, P a → P (f a)) :
    ∀ (i : ℕ) (l : List α), (∀ a ∈ l, P a) → ∀ b ∈ updateAt f i l, P b := by
  intro i l
  induction l generalizing i with
  | nil => intro _ b hb; simp [updateAt] at hb
  | cons a t ih =>
      intro hl b hb
      cases i with
      | zero =>
          simp only [updateAt] at hb
          rcases List.mem_cons.mp hb with rfl | hbt
          · exact hf a (hl a (List.mem_cons_self a t))
          · exact hl b (List.mem_cons_of_mem a hbt)
      | succ j =>
          simp only [updateAt] at hb
          rcases List.mem_cons.mp hb with rfl | hbt
          · exact hl b (List.mem_cons_self b t)
          · exact ih j (fun c hc => hl c (List.mem_cons_of_mem a hc)) b hbt

/-- `updateAt` keeps a witness of a pointwise property that the update
function preserves. -/
theorem updateAt_ex {α : Type} (P : α → Prop) (f : α → α)
    (hf : ∀ a, P a → P (f a)) :
    ∀ (i : ℕ) (l : List α), (∃ a ∈ l, P a) → ∃ b ∈ updateAt f i l, P b := by
  intro i l
  induction l generalizing i with
  | nil => rintro ⟨a, ha, -⟩; simp at ha
  | cons a t ih =>
      rintro ⟨b, hb, hPb⟩
      cases i with
      | zero =>
          rcases List.mem_cons.mp hb with rfl | hbt
          · exact ⟨f b, by simp [updateAt], hf b hPb⟩
          · exact ⟨b, by simp [updateAt, hbt], hPb⟩
      | succ j =>
          rcases List.mem_cons.mp hb with rfl | hbt
          · exact ⟨b, by simp [updateAt], hPb⟩
          · obtain ⟨c, hc, hPc⟩ := ih j ⟨b, hbt, hPb⟩
            exact ⟨c, by simp [updateAt, hc], hPc⟩

/-- The reduction-completion callback never touches `requires_grad`, the
published gradient, or the fp32 accumulator. -/
theorem rs_callback_fields (cfg : Cfg) (p : Param) (t : Tensor) :
    (_reduce_scatter_callback cfg p t).requires_grad = p.requires_grad ∧
    (_reduce_scatter_callback cfg p t).grad = p.grad ∧
    (_reduce_scatter_callback cfg p t).col_attr.fp32_grad = p.col_attr.fp32_grad := by
  by_cases hru : cfg.reuse_fp16_shard = true <;>
    simp [_reduce_scatter_callback, hru]

/-- Flushing the bucketer preserves a pointwise property that the
completion callback preserves. -/
theorem flush_pres (dl : Deliver) (cfg : Cfg) (P : Param → Prop)
    (hP : ∀ p t, P p → P (_reduce_scatter_callback cfg p t)) :
    ∀ (pending : List (ℕ × List Tensor)) (ps : List Param),
      (∀ p ∈ ps, P p) → ∀ p ∈ flush_pending dl cfg ps pending, P p := by
  intro pending
  induction pending with
  | nil => intro ps h; simpa [flush_pending] using h
  | cons e rest ih =>
      intro ps h
      exact ih _ (updateAt_pres P _ (fun a ha => hP a _ ha) e.1 ps h)

/-- Flushing the bucketer keeps a witness of a pointwise property that the
completion callback preserves. -/
theorem flush_ex (dl : Deliver) (cfg : Cfg) (P : Param → Prop)
    (hP : ∀ p t, P p → P (_reduce_scatter_callback cfg p t)) :
    ∀ (pending : List (ℕ × List Tensor)) (ps : List Param),
      (∃ p ∈ ps, P p) → ∃ p ∈ flush_pending dl cfg ps pending, P p := by
  intro pending
  induction pending with
  | nil => intro ps h; simpa [flush_pending] using h
  | cons e rest ih =>
      intro ps h
      exact ih _ (updateAt_ex P _ (fun a ha => hP a _ ha) e.1 ps h)

/-- The safety-net re-shard preserves a pointwise property that re-sharding
one record preserves. -/
theorem shard_unfired_pres (st : Strategy) (cfg : Cfg) (P : Param → Prop)
    (hP : ∀ p, P p → P { p with col_attr := { p.col_attr with
        sharded_data_tensor := st.shardFn p.col_attr.sharded_data_tensor } }) :
    ∀ ps, (∀ p ∈ ps, P p) → ∀ p ∈ shard_unfired st cfg ps, P p := by
  intro ps h p hp
  unfold shard_unfired at hp
  split at hp
  · rcases List.mem_map.mp hp with ⟨q, hq, rfl⟩
    by_cases hqs : q.col_attr.param_is_sharded = true
    · rw [if_pos hqs]
      exact h q hq
    · rw [if_neg hqs]
      exact hP q (h q hq)
  · exact h p hp

/-- The safety-net re-shard keeps a witness of a pointwise property that
re-sharding one record preserves. -/
theorem shard_unfired_ex (st : Strategy) (cfg : Cfg) (P : Param → Prop)
    (hP : ∀ p, P p → P { p with col_attr := { p.col_attr with
        sharded_data_tensor := st.shardFn p.col_attr.sharded_data_tensor } }) :
    ∀ ps, (∃ p ∈ ps, P p) → ∃ p ∈ shard_unfired st cfg ps, P p := by
  intro ps h
  rcases h with ⟨p, hp, hPp⟩
  unfold shard_unfired
  split
  · refine ⟨(if p.col_attr.param_is_sharded then p
      else { p with col_attr := { p.col_attr with
        sharded_data_tensor := st.shardFn p.col_attr.sharded_data_tensor } }),
      List.mem_map.mpr ⟨p, hp, rfl⟩, ?_⟩
    by_cases hqs : p.col_attr.param_is_sharded = true
    · rw [if_pos hqs]
      exact hPp
    · rw [if_neg hqs]
      exact hP p hPp
  · exact ⟨p, hp, hPp⟩

/-- In reuse mode, a synchronising reconciliation loop over parameters all
carrying a published gradient, one of which is trainable with an fp32
accumulator pending, fails with the configuration error. -/
theorem loop_reuse_accum (cfg : Cfg) (hreuse : cfg.reuse_fp16_shard = true) :
    ∀ ps : List Param,
      (∀ p ∈ ps, p.requires_grad = true → (p.grad).isSome = true) →
      (∃ p ∈ ps, p.requires_grad = true ∧ (p.col_attr.fp32_grad).isSome = true) →
      (param_loop cfg true ps).2 = some Err.configError := by
  intro ps
  induction ps with
  | nil => rintro _ ⟨p, hp, -⟩; simp at hp
  | cons p rest ih =>
      intro hP hQ
      cases hrq : p.requires_grad with
      | false =>
          have hst := step_param_not_required cfg true p hrq
          simp only [param_loop, hst]
          apply ih
          · intro q hq
            exact hP q (List.mem_cons_of_mem p hq)
          · rcases hQ with ⟨q, hq, hQq⟩
            rcases List.mem_cons.mp hq with rfl | hqr
            · rw [hrq] at hQq
              exact absurd hQq.1 (by simp)
            · exact ⟨q, hqr, hQq⟩
      | true =>
          rcases hf32 : p.col_attr.fp32_grad with _ | a
          · have hgr := hP p (List.mem_cons_self p rest) hrq
            have hok := step_reuse_ok cfg p hreuse hrq hf32 hgr
            rcases hst : step_param cfg true p with ⟨p1, e1⟩
            rw [hst] at hok
            simp only at hok
            subst hok
            simp only [param_loop, hst]
            apply ih
            · intro q hq
              exact hP q (List.mem_cons_of_mem p hq)
            · rcases hQ with ⟨q, hq, hQq⟩
              rcases List.mem_cons.mp hq with rfl | hqr
              · rw [hf32] at hQq
                exact absurd hQq.2 (by simp)
              · exact ⟨q, hqr, hQq⟩
          · have herr := step_reuse_fp32 cfg p a hreuse hrq hf32
            rcases hst : step_param cfg true p with ⟨p1, e1⟩
            rw [hst] at herr
            simp only at herr
            subst herr
            simp [param_loop, hst]

/-- C7: with synchronisation on and gradient-storage-reuse mode enabled, a
trainable parameter holding a pre-existing fp32 accumulator (gradient
accumulation across no-sync passes) makes the end-of-backward
reconciliation fail with the configuration error — the two modes are
mutually exclusive. -/
theorem claim7_reuse_accum_conflict (st : Strategy) (dl : Deliver) (capacity : ℚ)
    (cfg : Cfg) (s : State)
    (hsync : s.require_backward_grad_sync = true)
    (hreuse : cfg.reuse_fp16_shard = true)
    (hmem : s.memstats = none)
    (hgrads : ∀ p ∈ s.params, p.requires_grad = true → (p.grad).isSome = true)
    (hacc : ∃ p ∈ s.params, p.requires_grad = true ∧ (p.col_attr.fp32_grad).isSome = true) :
    (_post_backward_operations st dl capacity cfg s).2 = some Err.configError := by
  have hupd : _update_memstats capacity s
      = ({ s with iter_cnter := s.iter_cnter + 1 }, none) := by
    simp [_update_memstats, hmem]
  rw [post_backward_ok_shape st dl capacity cfg s _ hupd]
  have hpp : pre_params st dl cfg { s with iter_cnter := s.iter_cnter + 1 }
      = shard_unfired st cfg (flush_pending dl cfg s.params s.reducer.pending) := by
    simp [pre_params, hsync]
  rw [hpp]
  simp only [hsync]
  have hcb : ∀ (p : Param) (t : Tensor),
      (p.requires_grad = true → (p.grad).isSome = true) →
      ((_reduce_scatter_callback cfg p t).requires_grad = true →
        ((_reduce_scatter_callback cfg p t).grad).isSome = true) := by
    intro p t hp hrq
    obtain ⟨h1, h2, -⟩ := rs_callback_fields cfg p t
    rw [h1] at hrq
    rw [h2]
    exact hp hrq
  have hcb2 : ∀ (p : Param) (t : Tensor),
      (p.requires_grad = true ∧ (p.col_attr.fp32_grad).isSome = true) →
      ((_reduce_scatter_callback cfg p t).requires_grad = true ∧
        ((_reduce_scatter_callback cfg p t).col_attr.fp32_grad).isSome = true) := by
    intro p t hp
    obtain ⟨h1, -, h3⟩ := rs_callback_fields cfg p t
    rw [h1, h3]
    exact hp
  apply loop_reuse_accum cfg hreuse
  · exact shard_unfired_pres st cfg
      (fun p => p.requires_grad = true → (p.grad).isSome = true)
      (fun p hp => hp) _
      (flush_pres dl cfg
        (fun p => p.requires_grad = true → (p.grad).isSome = true)
        hcb s.reducer.pending s.params hgrads)
  · exact shard_unfired_ex st cfg
      (fun p => p.requires_grad = true ∧ (p.col_attr.fp32_grad).isSome = true)
      (fun p hp => hp) _
      (flush_ex dl cfg
        (fun p => p.requires_grad = true ∧ (p.col_attr.fp32_grad).isSome = true)
        hcb2 s.reducer.pending s.params hacc)

/-- Witness for C4: with capacity 10 and a window whose samples were 3 and
5, the margin is 5 and remains 5 after a later iteration samples 100. -/
theorem claim4_witness :
    (_update_memstats 10 stateC4).2 = none ∧
    ((_update_memstats 10 stateC4).1).cuda_margin_space = 10 - 5 ∧
    (run_iterations 10 [[100]] ((_update_memstats 10 stateC4).1)).cuda_margin_space
      = 10 - 5 := by
  have h := claim4_margin_space 10 stateC4 collC4 5 rfl rfl (by decide)
  exact ⟨h.1, h.2.1, h.2.2 [[100]]⟩


/-- Witness for C1: a concrete synchronising reconciliation over one
trainable parameter with a pending fp16 gradient publishes the
authoritative payload, clears the fp16 buffer and resets the counter. -/
theorem claim1_witness :
    (((_post_backward_operations stMark dlConst 0 cfgPlain stateC1).1).params.getD 0 default_param).col_attr.bwd_count = 0 ∧
    (((_post_backward_operations stMark dlConst 0 cfgPlain stateC1).1).params.getD 0 default_param).grad
      = authoritative_payload cfgPlain
          ((((_pre_loop stMark dlConst 0 cfgPlain stateC1).1).params.getD 0 default_param)).col_attr ∧
    (((_post_backward_operations stMark dlConst 0 cfgPlain stateC1).1).params.getD 0 default_param).col_attr.fp16_grad = none := by
  have hpb : _post_backward_operations stMark dlConst 0 cfgPlain stateC1
      = ((_post_backward_operations stMark dlConst 0 cfgPlain stateC1).1, none) := by decide
  have h := claim1_publish stMark dlConst 0 cfgPlain stateC1 _ rfl hpb
  have h0 := h.2 0 (by decide)
  exact ⟨h0.1, (h0.2 (by decide)).1, (h0.2 (by decide)).2.1⟩

/-- Witness for C5: a concrete double reconciliation leaves the published
gradients of the second run identical to those of the first. -/
theorem claim5_witness :
    ((_post_backward_operations stMark dlConst 0 cfgPlain
        ((_post_backward_operations stMark dlConst 0 cfgPlain stateC1).1)).1).params.map Param.grad
      = ((_post_backward_operations stMark dlConst 0 cfgPlain stateC1).1).params.map Param.grad :=
  claim5_idempotent stMark dlConst 0 cfgPlain stateC1 (fun t => rfl)

/-- Witness for C7: a concrete reuse-mode reconciliation over a parameter
carrying an fp32 accumulator fails with the configuration error. -/
theorem claim7_witness :
    (_post_backward_operations stMark dlConst 0 cfgReuse stateC7).2 = some Err.configError :=
  claim7_reuse_accum_conflict stMark dlConst 0 cfgReuse stateC7 rfl rfl rfl
    (by decide) (by decide)

end ColossalZero
